import Mathlib

/-!
Shallow embedding of the netcores-mcp core (src/client.js, src/tools.js,
src/server.js) and proofs about the claims of its specification.

Modelling conventions:
* JavaScript numbers appearing in payloads and configuration are modelled as
  `Int` (all values exercised by the code and the claims are integers).
* `undefined` / absent object fields are modelled as `Option.none`.
* JavaScript `a || b` (with its "0, empty string and undefined are falsy"
  semantics) is modelled by the `jsOr*` helpers below.
* A JavaScript object whose keys are integer-like strings (the `trend_data`
  object of the multiple-ASN trends response) is modelled as an association
  list `List (Nat × β)` carrying the key/value pairs in the order in which
  the remote JSON listed them; `Object.entries` / `for..of` enumeration is
  modelled by `jsIntegerKeyEntries`, which reproduces the ECMAScript rule
  that integer-index keys are enumerated in ascending numeric order.
-/

namespace NetCoresMCP

/-- JS `a || b` for an optional number: `undefined` and `0` are falsy. -/
def jsOrInt : Option Int → Int → Int
  | none, d => d
  | some x, d => if x = 0 then d else x

/-- JS `a || b` for an optional string: `undefined` and `""` are falsy. -/
def jsOrStr : Option String → String → String
  | none, d => d
  | some s, d => if s = "" then d else s

/-- JS `if (x) ... = x` guard on an optional string: keeps only truthy values
(`if (start_date) options.startDate = start_date` in tools.js). -/
def jsTruthyStr : Option String → Option String
  | none => none
  | some s => if s = "" then none else some s

/-- JS `Array.prototype.slice(start)`: a negative `start` counts from the end
of the array (clamped at 0), a non-negative `start` drops that many leading
elements. -/
def jsSlice {α : Type} (xs : List α) (start : Int) : List α :=
  if start < 0 then xs.drop (((xs.length : Int) + start).toNat)
  else xs.drop start.toNat

/-- Insert comma separators into a reversed (least-significant-first) digit
list, one separator after every run of three digits. -/
def commaRev : List Char → Nat → List Char
  | [], _ => []
  | c :: rest, k =>
    if k ≠ 0 ∧ k % 3 = 0 then ',' :: c :: commaRev rest (k + 1)
    else c :: commaRev rest (k + 1)

/-- JS `Number.prototype.toLocaleString()` (en-US default locale) on an
integer value: thousands separated by commas. -/
def toLocaleString (n : Int) : String :=
  let ds := (toString n.natAbs).data
  (if n < 0 then "-" else "") ++ String.mk ((commaRev ds.reverse 0).reverse)

/-- JS `Number.prototype.toFixed(3)` on an integer-valued number. -/
def toFixed3 (n : Int) : String :=
  toString n ++ ".000"

/-- JS string interpolation `${x}` of a number that can be `undefined`. -/
def jsShowOptInt : Option Int → String
  | none => "undefined"
  | some n => toString n

/-! ## Transport client — src/client.js -/

/-- The `options` object of `new NetCoresAPIClient(baseUrl, options)`. -/
structure ClientOptions where
  timeout : Option Int
  retryAttempts : Option Int
  retryDelay : Option Int
deriving DecidableEq, Repr

def ClientOptions.empty : ClientOptions := ⟨none, none, none⟩

/-- `baseUrl.replace(/\/$/, '')`: strip one trailing slash. -/
def stripTrailingSlash (s : String) : String :=
  if s.endsWith "/" then s.dropRight 1 else s

/-- The configuration state of `NetCoresAPIClient` (client.js lines 9-23). -/
structure NetCoresAPIClient where
  baseUrl : String
  timeout : Int
  retryAttempts : Int
  retryDelay : Int
deriving DecidableEq, Repr

/-- `NetCoresAPIClient`'s constructor: `options.timeout || 30000`,
`options.retryAttempts || 3`, `options.retryDelay || 1000`. -/
def NetCoresAPIClient.make (baseUrl : String) (options : ClientOptions) :
    NetCoresAPIClient :=
  ⟨stripTrailingSlash baseUrl,
   jsOrInt options.timeout 30000,
   jsOrInt options.retryAttempts 3,
   jsOrInt options.retryDelay 1000⟩

/-- An axios failure as seen by the response interceptor (client.js lines
26-41): a server response with an error status, a request with no response,
or anything else. -/
inductive AxiosFailure where
  | response (status : Nat) (dataMessage : Option String)
      (dataError : Option String) (message : String)
  | request (message : String)
  | other (message : String)
deriving DecidableEq, Repr

/-- The response interceptor's error normalization: the message thrown for
each failure class. -/
def interceptError : AxiosFailure → String
  | .response status dataMessage dataError message =>
      "NetCores API Error (" ++ toString status ++ "): " ++
        jsOrStr dataMessage (jsOrStr dataError message)
  | .request message => "NetCores API Connection Error: " ++ message
  | .other message => "NetCores API Error: " ++ message

deriving instance DecidableEq for Except

/-- The observable behaviour of one `makeRequest` invocation: how many HTTP
attempts were issued, the backoff delays awaited between consecutive
attempts (in order), and the settled value — `some (.ok v)` for a returned
payload, `some (.error e)` for a thrown error, and `none` when the loop body
never ran and the function fell through, resolving `undefined`. -/
structure RunResult (α : Type) where
  attempts : Nat
  delays : List Int
  outcome : Option (Except String α)
deriving DecidableEq, Repr

/-- The body of `makeRequest`'s retry loop (client.js lines 48-66), indexed
by the current attempt number and the number of remaining permitted attempts
(`retryAttempts - attempt + 1`). `transport n` is the outcome of the `n`-th
HTTP attempt. -/
def makeRequestGo {α : Type} (transport : Nat → Except String α)
    (retryDelay : Int) : Nat → Nat → RunResult α
  | _, 0 => ⟨0, [], none⟩
  | attempt, remaining + 1 =>
    match transport attempt with
    | .ok v => ⟨1, [], some (.ok v)⟩
    | .error e =>
      if remaining = 0 then
        ⟨1, [], some (.error e)⟩
      else
        let rest := makeRequestGo transport retryDelay (attempt + 1) remaining
        ⟨rest.attempts + 1, retryDelay * 2 ^ (attempt - 1) :: rest.delays,
         rest.outcome⟩

/-- `makeRequest` (client.js lines 47-67): `for (let attempt = 1; attempt <=
this.retryAttempts; attempt++) { try { ... return response.data } catch {
if (attempt === this.retryAttempts) throw error; await delay(retryDelay *
2^(attempt-1)) } }`. -/
def NetCoresAPIClient.makeRequest {α : Type} (c : NetCoresAPIClient)
    (transport : Nat → Except String α) : RunResult α :=
  makeRequestGo transport c.retryDelay 1 c.retryAttempts.toNat

/-- `database` sub-object of the health payload. -/
structure DbHealth where
  status : Option String
  connection : Option String
  tables : Option Int
deriving DecidableEq, Repr

/-- Decoded `/api/health` payload. -/
structure HealthPayload where
  status : Option String
  version : Option String
  data_status : Option String
  database : Option DbHealth
deriving DecidableEq, Repr

/-- The object returned by `testConnection()` (client.js lines 152-169);
keys absent on one branch are `none`. -/
structure TestConnectionResult where
  success : Bool
  status : Option String
  version : Option String
  dataStatus : Option String
  error : Option String
  baseUrl : String
deriving DecidableEq, Repr

/-- `testConnection()` over the outcome of the underlying health probe: on a
decoded payload it reports success with the probe's fields; on a thrown
error it reports failure with the message; when `makeRequest` fell through
with `undefined`, the access `health.status` throws a `TypeError`, which the
same `catch` turns into a failure result. -/
def NetCoresAPIClient.testConnection (c : NetCoresAPIClient)
    (transport : Nat → Except String HealthPayload) : TestConnectionResult :=
  match (c.makeRequest transport).outcome with
  | some (.ok health) =>
      ⟨true, health.status, health.version, health.data_status, none, c.baseUrl⟩
  | some (.error e) => ⟨false, none, none, none, some e, c.baseUrl⟩
  | none =>
      ⟨false, none, none, none,
       some "Cannot read properties of undefined (reading 'status')", c.baseUrl⟩

/-! ## Tool registry — src/tools.js `getToolDefinitions` -/

/-- A `default` value appearing in a tool's input schema. -/
inductive SchemaDefault where
  | str (s : String)
  | int (n : Int)
  | strList (l : List String)
deriving DecidableEq, Repr

/-- One property of a tool's declarative JSON input schema. -/
structure PropSchema where
  type : String
  description : String
  enum : Option (List String)
  pattern : Option String
  minimum : Option Int
  maximum : Option Int
  minItems : Option Nat
  maxItems : Option Nat
  itemsType : Option String
  itemsEnum : Option (List String)
  dflt : Option SchemaDefault
deriving DecidableEq, Repr

/-- A property schema with only `type` and `description` set. -/
def PropSchema.base (type description : String) : PropSchema :=
  ⟨type, description, none, none, none, none, none, none, none, none, none⟩

/-- An MCP tool definition: name, description and input schema. -/
structure ToolDefinition where
  name : String
  description : String
  properties : List (String × PropSchema)
  required : List String
deriving DecidableEq, Repr

/-- The static catalog returned by `getToolDefinitions()` (tools.js lines
16-166), in declaration order. -/
def getToolDefinitions : List ToolDefinition :=
  [⟨"netcores_health_check",
    "Check the health and status of the NetCores system", [], []⟩,
   ⟨"netcores_data_summary",
    "Get summary of available network data across IP versions", [], []⟩,
   ⟨"netcores_asn_trend",
    "Analyze k-core shell index trends for a specific ASN over time",
    [("asn", PropSchema.base "integer" "ASN number to analyze"),
     ("ip_version",
      { PropSchema.base "string" "IP version (ipv4 or ipv6)" with
        enum := some ["ipv4", "ipv6"], dflt := some (.str "ipv4") }),
     ("start_date",
      { PropSchema.base "string" "Start date in YYYY-MM-DD format" with
        pattern := some "^\\d{4}-\\d{2}-\\d{2}$" }),
     ("end_date",
      { PropSchema.base "string" "End date in YYYY-MM-DD format" with
        pattern := some "^\\d{4}-\\d{2}-\\d{2}$" }),
     ("limit",
      { PropSchema.base "integer"
          "Maximum number of data points to display (default: 20, use 0 for all data)" with
        minimum := some 0, maximum := some 1000, dflt := some (.int 20) })],
    ["asn"]⟩,
   ⟨"netcores_multiple_asn_trends",
    "Compare k-core shell index trends for multiple ASNs over time",
    [("asns",
      { PropSchema.base "array" "List of ASN numbers to analyze" with
        itemsType := some "integer", minItems := some 1, maxItems := some 10 }),
     ("ip_version",
      { PropSchema.base "string" "IP version (ipv4 or ipv6)" with
        enum := some ["ipv4", "ipv6"], dflt := some (.str "ipv4") }),
     ("start_date",
      { PropSchema.base "string" "Start date in YYYY-MM-DD format" with
        pattern := some "^\\d{4}-\\d{2}-\\d{2}$" }),
     ("end_date",
      { PropSchema.base "string" "End date in YYYY-MM-DD format" with
        pattern := some "^\\d{4}-\\d{2}-\\d{2}$" }),
     ("limit",
      { PropSchema.base "integer"
          "Maximum number of data points to display per ASN (default: 10, use 0 for all data)" with
        minimum := some 0, maximum := some 1000, dflt := some (.int 10) })],
    ["asns"]⟩,
   ⟨"netcores_snapshots",
    "Get information about available network snapshots",
    [("ip_version",
      { PropSchema.base "string"
          "IP version to filter by (ipv4, ipv6, or omit for all)" with
        enum := some ["ipv4", "ipv6"] })],
    []⟩,
   ⟨"netcores_refresh_data",
    "Trigger data refresh from CAIDA sources",
    [("ip_versions",
      { PropSchema.base "array" "IP versions to refresh" with
        itemsType := some "string", itemsEnum := some ["ipv4", "ipv6"],
        dflt := some (.strList ["ipv4", "ipv6"]) })],
    []⟩,
   ⟨"netcores_scheduler_status",
    "Check the status of the automatic data update scheduler", [], []⟩,
   ⟨"netcores_trigger_update",
    "Manually trigger a scheduled data update check", [], []⟩]

/-- The names of the 8 registered tools, in declaration order. -/
def toolNames : List String := getToolDefinitions.map ToolDefinition.name

/-- Registry lookup by exact tool name. -/
def findToolDefinition (name : String) : Option ToolDefinition :=
  getToolDefinitions.find? (fun t => t.name == name)

/-- The schema-declared default of one property of one tool. -/
def schemaPropDefault (toolName propName : String) : Option SchemaDefault :=
  match findToolDefinition toolName with
  | none => none
  | some td =>
    match td.properties.find? (fun p => p.1 == propName) with
    | none => none
    | some p => p.2.dflt

/-! ## Remote payload shapes — src/tools.js handlers -/

/-- `date_range` sub-object of trend/summary payloads. -/
structure DateRange where
  start : Option String
  «end» : Option String
deriving DecidableEq, Repr

/-- One point of a trend series. -/
structure TrendPoint where
  date : Option String
  shell_index : Option Int
  max_shell_index : Option Int
  normalized_shell_index : Option Int
deriving DecidableEq, Repr

/-- Decoded `GET /api/trends/{asn}` payload. -/
structure TrendResult where
  ip_version : Option String
  date_range : Option DateRange
  trend_data : Option (List TrendPoint)
deriving DecidableEq, Repr

/-- Decoded `POST /api/trends` payload; `trend_data` is an object keyed by
ASN (integer-like keys), carried here in the response's own key order. -/
structure MultiTrendResult where
  ip_version : Option String
  date_range : Option DateRange
  trend_data : Option (List (Nat × List TrendPoint))
deriving DecidableEq, Repr

/-- Per-IP-version entry of the `GET /api/summary` payload. -/
structure SummaryData where
  snapshot_count : Option Int
  date_range : Option DateRange
  total_asns : Option Int
  max_shell_index : Option Int
deriving DecidableEq, Repr

/-- One snapshot of the `GET /api/snapshots` payload. -/
structure Snapshot where
  date : Option String
  max_shell_index : Option Int
  unique_asns : Option Int
deriving DecidableEq, Repr

/-- Per-IP-version entry of the `POST /api/refresh` payload. -/
structure RefreshOutcome where
  success : Bool
  processed_dates : Option (List String)
  error : Option String
deriving DecidableEq, Repr

/-- Decoded `GET /api/scheduler/status` payload. -/
structure SchedulerPayload where
  running : Option Bool
  enabled : Option Bool
  schedule : Option String
  next_run : Option String
deriving DecidableEq, Repr

/-- Per-IP-version entry of the `POST /api/scheduler/update` results. -/
structure UpdateEntry where
  success : Bool
deriving DecidableEq, Repr

/-- Decoded `POST /api/scheduler/update` payload. -/
structure UpdatePayload where
  triggered : Option Bool
  timestamp : Option String
  results : Option (List (String × UpdateEntry))
deriving DecidableEq, Repr

/-- The `options` object handed to the client's trend methods. -/
structure TrendOptions where
  ipVersion : String
  startDate : Option String
  endDate : Option String
deriving DecidableEq, Repr

/-- One invocation of a `NetCoresAPIClient` method, as recorded by a tool
handler; an empty call list means the transport client was never invoked. -/
inductive ClientCall where
  | healthCheck
  | getDataSummary
  | getASNTrend (asn : Option Int) (options : TrendOptions)
  | getMultipleASNTrends (asns : Option (List Int)) (options : TrendOptions)
  | getSnapshots (ipVersion : Option String)
  | refreshData (ipVersions : List String)
  | getSchedulerStatus
  | triggerUpdate
deriving DecidableEq, Repr

/-- The behaviour of the remote service as observed through each client
method: what each call settles to (decoded payload or thrown error). -/
structure ClientOracle where
  health : Except String HealthPayload
  summary : Except String (List (String × SummaryData))
  asnTrend : Option Int → TrendOptions → Except String TrendResult
  multiTrends : Option (List Int) → TrendOptions → Except String MultiTrendResult
  snapshots : Option String → Except String (List (String × List Snapshot))
  refresh : List String → Except String (List (String × RefreshOutcome))
  scheduler : Except String SchedulerPayload
  update : Except String UpdatePayload

/-- An oracle whose every remote call fails by throwing message `m`. -/
def failingOracle (m : String) : ClientOracle :=
  ⟨.error m, .error m, fun _ _ => .error m, fun _ _ => .error m,
   fun _ => .error m, fun _ => .error m, .error m, .error m⟩

/-- The raw `params` object of a tool invocation, restricted to the
properties the handlers read; `none` is an absent/undefined property. -/
structure ToolParams where
  asn : Option Int
  asns : Option (List Int)
  ip_version : Option String
  start_date : Option String
  end_date : Option String
  limit : Option Int
  ip_versions : Option (List String)
deriving DecidableEq, Repr

/-- The empty arguments object `{}`. -/
def ToolParams.empty : ToolParams := ⟨none, none, none, none, none, none, none⟩

/-! ## Response formatters — src/tools.js -/

/-- The `date: Shell s/m (normalized: x)` core of a trend-point line. -/
def trendPointLine (point : TrendPoint) : String :=
  jsOrStr point.date "N/A" ++ ": Shell " ++
    toString (jsOrInt point.shell_index 0) ++ "/" ++
    toString (jsOrInt point.max_shell_index 0) ++ " (normalized: " ++
    toFixed3 (jsOrInt point.normalized_shell_index 0) ++ ")"

/-- The `**Date Range:** ...` line, emitted only when `result.date_range`
is present. -/
def dateRangeLine : Option DateRange → String
  | none => ""
  | some dr =>
    "**Date Range:** " ++ jsOrStr dr.start "N/A" ++ " to " ++
      jsOrStr dr.«end» "N/A" ++ "\n"

/-- The display-window stage of `asnTrend` (tools.js lines 275-290): which
points are displayed and the `**Showing:** ...` line. `limit == 0` shows
the whole series; otherwise `trendData.slice(-limit)` is shown, with a
"Most recent" line only when the series is actually longer than `limit`. -/
def asnTrendDisplay (trendData : List TrendPoint) (limit : Int) :
    List TrendPoint × String :=
  if limit = 0 then
    (trendData,
     "**Showing:** All " ++ toString trendData.length ++ " data points\n\n")
  else
    let displayData := jsSlice trendData (-limit)
    if (trendData.length : Int) > limit then
      (displayData,
       "**Showing:** Most recent " ++ toString displayData.length ++ " of " ++
         toString trendData.length ++ " data points\n*Use limit=0 to see all data*\n\n")
    else
      (displayData,
       "**Showing:** All " ++ toString displayData.length ++ " data points\n\n")

/-- The full success-path response of the single-ASN trend tool (tools.js
lines 254-305). -/
def asnTrendFormat (asn : Option Int) (result : TrendResult) (limit : Int) :
    String :=
  "📈 ASN " ++ jsShowOptInt asn ++ " Trend Analysis\n\n" ++
  "**IP Version:** " ++ jsOrStr result.ip_version "unknown" ++ "\n" ++
  dateRangeLine result.date_range ++
  (let trendData := result.trend_data.getD []
   if trendData.length > 0 then
     let display := asnTrendDisplay trendData limit
     "**Total Data Points:** " ++ toString trendData.length ++ "\n" ++
     display.2 ++
     "**Trend Data:**\n" ++
     String.join (display.1.map (fun point => "- " ++ trendPointLine point ++ "\n"))
   else
     "**No trend data available for this ASN and date range.**\n")

/-- Insert one key/value pair into a list kept in ascending key order. -/
def insertAscByKey {β : Type} (p : Nat × β) :
    List (Nat × β) → List (Nat × β)
  | [] => [p]
  | q :: rest => if p.1 < q.1 then p :: q :: rest else q :: insertAscByKey p rest

/-- `Object.entries` / `for..of` enumeration order of a JS object whose own
keys are all integer-like strings: the ECMAScript ordinary [[OwnPropertyKeys]]
rule enumerates integer-index keys in ascending numeric order, whatever
order they arrived in. -/
def jsIntegerKeyEntries {β : Type} (obj : List (Nat × β)) : List (Nat × β) :=
  obj.foldr insertAscByKey []

/-- The order in which `multipleAsnTrends` renders its per-ASN sections:
the enumeration order of `Object.entries(result.trend_data)`. -/
def multipleAsnSectionOrder (trendData : List (Nat × List TrendPoint)) :
    List Nat :=
  (jsIntegerKeyEntries trendData).map Prod.fst

/-- One `**ASN n:**` section of the multiple-ASN trends response (tools.js
lines 343-382). -/
def multiAsnSection (limit : Int) (entry : Nat × List TrendPoint) : String :=
  let asn := entry.1
  let dataPoints := entry.2
  "**ASN " ++ toString asn ++ ":**\n" ++
  (if dataPoints.length > 0 then
     "- Total data points: " ++ toString dataPoints.length ++ "\n" ++
     (let displayData :=
        if limit = 0 then dataPoints else jsSlice dataPoints (-limit)
      if displayData.length > 1 then
        "- Showing recent " ++ toString displayData.length ++ " points:\n" ++
          String.join (displayData.map
            (fun point => "  - " ++ trendPointLine point ++ "\n"))
      else if displayData.length = 1 then
        String.join (displayData.map
          (fun latest =>
            "- Latest (" ++ jsOrStr latest.date "N/A" ++ "): Shell " ++
              toString (jsOrInt latest.shell_index 0) ++ "/" ++
              toString (jsOrInt latest.max_shell_index 0) ++ " (normalized: " ++
              toFixed3 (jsOrInt latest.normalized_shell_index 0) ++ ")\n"))
      else "") ++
     "\n"
   else "- No data available\n\n")

/-- The full success-path response of the multiple-ASN trends tool (tools.js
lines 315-384); the per-ASN sections follow the `Object.entries` enumeration
order of `result.trend_data`. -/
def multipleAsnTrendsFormat (asns : List Int) (result : MultiTrendResult)
    (limit : Int) : String :=
  "📊 Multiple ASN Trend Analysis\n\n" ++
  "**ASNs:** " ++ String.intercalate ", " (asns.map toString) ++ "\n" ++
  "**IP Version:** " ++ jsOrStr result.ip_version "unknown" ++ "\n" ++
  dateRangeLine result.date_range ++
  (if limit = 0 then
     "**Showing:** All available data points per ASN\n\n"
   else
     "**Showing:** Up to " ++ toString limit ++
       " most recent data points per ASN\n*Use limit=0 to see all data*\n\n") ++
  String.join ((jsIntegerKeyEntries (result.trend_data.getD [])).map
    (multiAsnSection limit))

/-- The health-check response text (tools.js lines 197-213). -/
def healthCheckFormat (result : HealthPayload) : String :=
  let statusEmoji := if result.status = some "healthy" then "✅" else "❌"
  let dataEmoji := if result.data_status = some "available" then "📊" else "⚠️"
  "🏥 NetCores Health Check " ++ statusEmoji ++ "\n\n" ++
  "**System Status:** " ++ jsOrStr result.status "unknown" ++ "\n" ++
  "**Version:** " ++ jsOrStr result.version "unknown" ++ "\n" ++
  "**Data Status:** " ++ jsOrStr result.data_status "unknown" ++ " " ++
    dataEmoji ++ "\n\n" ++
  "**Database Health:**\n" ++
  "- Status: " ++ jsOrStr (result.database.bind DbHealth.status) "unknown" ++ "\n" ++
  "- Connection: " ++
    jsOrStr (result.database.bind DbHealth.connection) "unknown" ++ "\n" ++
  "- Tables: " ++ toString (jsOrInt (result.database.bind DbHealth.tables) 0)

/-- One per-IP-version block of the data-summary response. -/
def summaryEntry (e : String × SummaryData) : String :=
  let ipVersion := e.1
  let data := e.2
  "**" ++ ipVersion.toUpper ++ " " ++
    (if ipVersion = "ipv4" then "🌐" else "🌍") ++ ":**\n" ++
  "- Snapshots: " ++ toString (jsOrInt data.snapshot_count 0) ++ "\n" ++
  (match data.date_range with
   | none => ""
   | some dr =>
     "- Date Range: " ++ jsOrStr dr.start "N/A" ++ " to " ++
       jsOrStr dr.«end» "N/A" ++ "\n") ++
  "- Total ASNs: " ++ toLocaleString (jsOrInt data.total_asns 0) ++ "\n" ++
  "- Max Shell Index: " ++ toString (jsOrInt data.max_shell_index 0) ++ "\n\n"

/-- The data-summary response text (tools.js lines 223-244); the payload's
keys (`ipv4`, `ipv6`) are not integer-like, so `Object.entries` preserves
their insertion order. -/
def dataSummaryFormat (result : List (String × SummaryData)) : String :=
  "📊 NetCores Data Summary\n\n" ++ String.join (result.map summaryEntry)

/-- One per-IP-version block of the snapshots response. -/
def snapshotsEntry (e : String × List Snapshot) : String :=
  let ipVersion := e.1
  let snapshots := e.2
  "**" ++ ipVersion.toUpper ++ " " ++
    (if ipVersion = "ipv4" then "🌐" else "🌍") ++ ":**\n" ++
  (match snapshots.getLast?, snapshots.head? with
   | some latest, some oldest =>
     "- Total snapshots: " ++ toString snapshots.length ++ "\n" ++
     "- Latest: " ++ jsOrStr latest.date "N/A" ++ "\n" ++
     "- Max shell index: " ++ toString (jsOrInt latest.max_shell_index 0) ++ "\n" ++
     "- Unique ASNs: " ++ toLocaleString (jsOrInt latest.unique_asns 0) ++ "\n" ++
     (if snapshots.length > 1 then
        "- Oldest: " ++ jsOrStr oldest.date "N/A" ++ "\n"
      else "")
   | _, _ => "- No snapshots available\n") ++
  "\n"

/-- The snapshots response text (tools.js lines 394-425). -/
def snapshotsFormat (result : List (String × List Snapshot)) : String :=
  "📷 Network Snapshots\n\n" ++ String.join (result.map snapshotsEntry)

/-- One per-IP-version block of the refresh response. -/
def refreshEntry (e : String × RefreshOutcome) : String :=
  let ipVersion := e.1
  let refreshResult := e.2
  "**" ++ ipVersion.toUpper ++ " " ++
    (if ipVersion = "ipv4" then "🌐" else "🌍") ++ ":**\n" ++
  (if refreshResult.success then
     "✅ Refresh completed successfully\n" ++
     (let processed := refreshResult.processed_dates.getD []
      if processed.length > 0 then
        "- Processed dates: " ++ String.intercalate ", " processed ++ "\n"
      else "")
   else
     "❌ Refresh failed\n" ++
     "- Error: " ++ jsOrStr refreshResult.error "Unknown error" ++ "\n") ++
  "\n"

/-- The refresh-data response text (tools.js lines 435-462). -/
def refreshDataFormat (result : List (String × RefreshOutcome)) : String :=
  "🔄 Data Refresh Results\n\n" ++ String.join (result.map refreshEntry)

/-- JS interpolation of a boolean expression `${b}`. -/
def jsShowBool (b : Bool) : String := if b then "true" else "false"

/-- The scheduler-status response text (tools.js lines 472-490). -/
def schedulerStatusFormat (result : SchedulerPayload) : String :=
  let runningEmoji := if result.running.getD false then "🟢" else "🔴"
  let enabledEmoji := if result.enabled.getD false then "✅" else "❌"
  "⏰ Scheduler Status " ++ runningEmoji ++ "\n\n" ++
  "**Running:** " ++ jsShowBool (result.running.getD false) ++ " " ++
    runningEmoji ++ "\n" ++
  "**Enabled:** " ++ jsShowBool (result.enabled.getD false) ++ " " ++
    enabledEmoji ++ "\n" ++
  "**Schedule:** " ++ jsOrStr result.schedule "N/A" ++ "\n" ++
  (match jsTruthyStr result.next_run with
   | some nr => "**Next Run:** " ++ nr ++ "\n"
   | none => "**Next Run:** Not scheduled\n")

/-- The trigger-update response text (tools.js lines 500-523). -/
def triggerUpdateFormat (result : UpdatePayload) : String :=
  "🚀 Manual Update Triggered\n\n" ++
  "**Triggered:** " ++ jsShowBool (result.triggered.getD false) ++ "\n" ++
  "**Timestamp:** " ++ jsOrStr result.timestamp "N/A" ++ "\n\n" ++
  (let updateResults := result.results.getD []
   if updateResults.length > 0 then
     "**Update Results:**\n" ++
     String.join (updateResults.map (fun e =>
       "- " ++ e.1.toUpper ++ " " ++
         (if e.1 = "ipv4" then "🌐" else "🌍") ++ ": " ++
         (if e.2.success then "✅ Success\n" else "❌ Failed\n")))
   else "")

/-! ## Tool handlers and dispatch — src/tools.js -/

namespace NetCoresTools

/-- A handler's observable behaviour: the text it returns (handlers catch
their own exceptions and always return a string) and the client calls it
issued, in order. -/
abbrev HandlerRun := String × List ClientCall

/-- `healthCheck` (tools.js lines 197-218). -/
def healthCheck (o : ClientOracle) (_params : ToolParams) : HandlerRun :=
  (match o.health with
   | .ok result => healthCheckFormat result
   | .error e => "❌ Health check failed: " ++ e,
   [.healthCheck])

/-- `dataSummary` (tools.js lines 223-249). -/
def dataSummary (o : ClientOracle) (_params : ToolParams) : HandlerRun :=
  (match o.summary with
   | .ok result => dataSummaryFormat result
   | .error e => "❌ Data summary failed: " ++ e,
   [.getDataSummary])

/-- `asnTrend` (tools.js lines 254-310): destructuring defaults
`ip_version = 'ipv4'`, `limit = 20`; `start_date`/`end_date` are copied
into `options` only when truthy; the client is called unconditionally. -/
def asnTrend (o : ClientOracle) (params : ToolParams) : HandlerRun :=
  let asn := params.asn
  let ip_version := params.ip_version.getD "ipv4"
  let limit := params.limit.getD 20
  let options : TrendOptions :=
    ⟨ip_version, jsTruthyStr params.start_date, jsTruthyStr params.end_date⟩
  (match o.asnTrend asn options with
   | .ok result => asnTrendFormat asn result limit
   | .error e => "❌ ASN trend analysis failed: " ++ e,
   [.getASNTrend asn options])

/-- `multipleAsnTrends` (tools.js lines 315-389): destructuring defaults
`ip_version = 'ipv4'`, `limit = 10`. When `asns` is absent the client call
still happens first; the subsequent `asns.join(', ')` then throws a
`TypeError`, producing the catch-block's failure text. -/
def multipleAsnTrends (o : ClientOracle) (params : ToolParams) : HandlerRun :=
  let ip_version := params.ip_version.getD "ipv4"
  let limit := params.limit.getD 10
  let options : TrendOptions :=
    ⟨ip_version, jsTruthyStr params.start_date, jsTruthyStr params.end_date⟩
  (match o.multiTrends params.asns options with
   | .ok result =>
     match params.asns with
     | some asns => multipleAsnTrendsFormat asns result limit
     | none =>
       "❌ Multiple ASN trend analysis failed: Cannot read properties of undefined (reading 'join')"
   | .error e => "❌ Multiple ASN trend analysis failed: " ++ e,
   [.getMultipleASNTrends params.asns options])

/-- `snapshots` (tools.js lines 394-430). -/
def snapshots (o : ClientOracle) (params : ToolParams) : HandlerRun :=
  (match o.snapshots params.ip_version with
   | .ok result => snapshotsFormat result
   | .error e => "❌ Snapshots query failed: " ++ e,
   [.getSnapshots params.ip_version])

/-- `refreshData` (tools.js lines 435-467): destructuring default
`ip_versions = ['ipv4', 'ipv6']`. -/
def refreshData (o : ClientOracle) (params : ToolParams) : HandlerRun :=
  let ip_versions := params.ip_versions.getD ["ipv4", "ipv6"]
  (match o.refresh ip_versions with
   | .ok result => refreshDataFormat result
   | .error e => "❌ Data refresh failed: " ++ e,
   [.refreshData ip_versions])

/-- `schedulerStatus` (tools.js lines 472-495). -/
def schedulerStatus (o : ClientOracle) (_params : ToolParams) : HandlerRun :=
  (match o.scheduler with
   | .ok result => schedulerStatusFormat result
   | .error e => "❌ Scheduler status query failed: " ++ e,
   [.getSchedulerStatus])

/-- `triggerUpdate` (tools.js lines 500-528). -/
def triggerUpdate (o : ClientOracle) (_params : ToolParams) : HandlerRun :=
  (match o.update with
   | .ok result => triggerUpdateFormat result
   | .error e => "❌ Manual update trigger failed: " ++ e,
   [.triggerUpdate])

/-- `executeTool` (tools.js lines 171-192): a switch on the tool name with
no argument validation of any kind; the default branch throws
`Unknown tool: ${toolName}` without touching the client. The first
component is the settled value (`.ok` returned text, `.error` thrown
message), the second the client calls issued. -/
def executeTool (o : ClientOracle) (toolName : String) (params : ToolParams) :
    Except String String × List ClientCall :=
  if toolName = "netcores_health_check" then
    let r := healthCheck o params; (.ok r.1, r.2)
  else if toolName = "netcores_data_summary" then
    let r := dataSummary o params; (.ok r.1, r.2)
  else if toolName = "netcores_asn_trend" then
    let r := asnTrend o params; (.ok r.1, r.2)
  else if toolName = "netcores_multiple_asn_trends" then
    let r := multipleAsnTrends o params; (.ok r.1, r.2)
  else if toolName = "netcores_snapshots" then
    let r := snapshots o params; (.ok r.1, r.2)
  else if toolName = "netcores_refresh_data" then
    let r := refreshData o params; (.ok r.1, r.2)
  else if toolName = "netcores_scheduler_status" then
    let r := schedulerStatus o params; (.ok r.1, r.2)
  else if toolName = "netcores_trigger_update" then
    let r := triggerUpdate o params; (.ok r.1, r.2)
  else
    (.error ("Unknown tool: " ++ toolName), [])

end NetCoresTools

/-! ## MCP server call-tool handler — src/server.js `setupHandlers` -/

/-- What the CallTool request handler hands back to the MCP runtime: a
single text content block, or a thrown `McpError` (error code and message)
that escapes to the protocol layer. -/
inductive CallToolResponse where
  | content (text : String)
  | mcpError (code : String) (message : String)
deriving DecidableEq, Repr

/-- Whether a call-tool response is a text content block. -/
def CallToolResponse.isTextContent : CallToolResponse → Bool
  | .content _ => true
  | .mcpError _ _ => false

/-- `toolDefinitions.some(tool => tool.name === name)` (server.js line 78). -/
def isKnownTool (name : String) : Bool :=
  getToolDefinitions.any (fun t => t.name == name)

/-- The CallTool request handler (server.js lines 56-97): a returned string
becomes one text block; a thrown error is re-thrown as an `McpError` with
code `MethodNotFound` when the name is not a known tool, and otherwise
converted into a `❌ Error executing ...` text block. -/
def callToolHandler (o : ClientOracle) (name : String) (args : ToolParams) :
    CallToolResponse :=
  match NetCoresTools.executeTool o name args with
  | (.ok text, _) => .content text
  | (.error msg, _) =>
    if isKnownTool name then
      .content ("❌ Error executing " ++ name ++ ": " ++ msg)
    else
      .mcpError "MethodNotFound" ("Unknown tool: " ++ name)

/-! ## Helper lemmas -/

/-- When every attempt fails, the retry loop runs through its whole
remaining budget: one HTTP attempt per permitted try, an exponential
backoff delay between consecutive tries, and the last attempt's error as
the settled outcome. -/
theorem makeRequestGo_allFail {α : Type} (e : Nat → String) (d : Int) :
    ∀ (remaining attempt : Nat), 0 < remaining →
      makeRequestGo (fun n => (Except.error (e n) : Except String α)) d
          attempt remaining =
        ⟨remaining,
         (List.range (remaining - 1)).map (fun i => d * 2 ^ (attempt + i - 1)),
         some (Except.error (e (attempt + remaining - 1)))⟩ := by
  intro remaining
  induction remaining with
  | zero => intro attempt h; exact absurd h (by omega)
  | succ n ih =>
    intro attempt _
    cases n with
    | zero => simp [makeRequestGo]
    | succ m =>
      have hrest := ih (attempt + 1) (by omega)
      have hstep : makeRequestGo
            (fun n => (Except.error (e n) : Except String α)) d attempt
            (m + 1 + 1) =
          ⟨(makeRequestGo (fun n => (Except.error (e n) : Except String α)) d
              (attempt + 1) (m + 1)).attempts + 1,
           d * 2 ^ (attempt - 1) ::
             (makeRequestGo (fun n => (Except.error (e n) : Except String α)) d
               (attempt + 1) (m + 1)).delays,
           (makeRequestGo (fun n => (Except.error (e n) : Except String α)) d
             (attempt + 1) (m + 1)).outcome⟩ := rfl
      rw [hstep, hrest]
      refine congrArg₂ (RunResult.mk (m + 1 + 1)) ?_ ?_
      · show d * 2 ^ (attempt - 1) ::
            List.map (fun i => d * 2 ^ (attempt + 1 + i - 1))
              (List.range (m + 1 - 1)) =
          List.map (fun i => d * 2 ^ (attempt + i - 1))
            (List.range (m + 1 + 1 - 1))
        simp only [Nat.add_sub_cancel]
        rw [List.range_succ_eq_map, List.map_cons, List.map_map]
        refine congrArg₂ List.cons ?_ ?_
        · show d * 2 ^ (attempt - 1) = d * 2 ^ (attempt + 0 - 1)
          rw [Nat.add_zero]
        · refine List.map_congr_left (fun i _ => ?_)
          show d * 2 ^ (attempt + 1 + i - 1) = d * 2 ^ (attempt + Nat.succ i - 1)
          have hi : attempt + 1 + i - 1 = attempt + Nat.succ i - 1 := by omega
          rw [hi]
      · show some (Except.error (e (attempt + 1 + (m + 1) - 1))) =
          some (Except.error (e (attempt + (m + 1 + 1) - 1)))
        have hn : attempt + 1 + (m + 1) - 1 = attempt + (m + 1 + 1) - 1 := by
          omega
        rw [hn]

/-- `makeRequest` against an always-failing transport: specialization of
`makeRequestGo_allFail` to the loop's entry point (attempt 1). -/
theorem makeRequest_allFail {α : Type} (c : NetCoresAPIClient)
    (e : Nat → String) (h : 0 < c.retryAttempts) :
    c.makeRequest (fun n => (Except.error (e n) : Except String α)) =
      ⟨c.retryAttempts.toNat,
       (List.range (c.retryAttempts.toNat - 1)).map
         (fun i => c.retryDelay * 2 ^ i),
       some (Except.error (e c.retryAttempts.toNat))⟩ := by
  have h0 : 0 < c.retryAttempts.toNat := by omega
  rw [NetCoresAPIClient.makeRequest,
    makeRequestGo_allFail e c.retryDelay c.retryAttempts.toNat 1 h0]
  refine congrArg₂ (RunResult.mk c.retryAttempts.toNat) ?_ ?_
  · refine List.map_congr_left (fun i _ => ?_)
    have hi : 1 + i - 1 = i := by omega
    rw [hi]
  · have hn : 1 + c.retryAttempts.toNat - 1 = c.retryAttempts.toNat := by omega
    rw [hn]

/-- Membership in `insertAscByKey`. -/
theorem mem_insertAscByKey {β : Type} (p x : Nat × β) :
    ∀ (l : List (Nat × β)), x ∈ insertAscByKey p l ↔ x = p ∨ x ∈ l := by
  intro l
  induction l with
  | nil => simp [insertAscByKey]
  | cons q rest ih =>
    simp only [insertAscByKey]
    split
    · simp [List.mem_cons]
    · simp only [List.mem_cons, ih]
      tauto

/-- `insertAscByKey` preserves sortedness by key. -/
theorem sorted_insertAscByKey {β : Type} (p : Nat × β) :
    ∀ (l : List (Nat × β)), l.Sorted (fun a b => a.1 ≤ b.1) →
      (insertAscByKey p l).Sorted (fun a b => a.1 ≤ b.1) := by
  intro l
  induction l with
  | nil => intro _; simp [insertAscByKey]
  | cons q rest ih =>
    intro h
    rw [List.sorted_cons] at h
    obtain ⟨hq, hrest⟩ := h
    simp only [insertAscByKey]
    split
    · next hlt =>
      rw [List.sorted_cons]
      refine ⟨?_, by rw [List.sorted_cons]; exact ⟨hq, hrest⟩⟩
      intro b hb
      rcases List.mem_cons.mp hb with hb | hb
      · exact le_of_lt (hb ▸ hlt)
      · exact le_trans (le_of_lt hlt) (hq b hb)
    · next hge =>
      rw [List.sorted_cons]
      refine ⟨?_, ih hrest⟩
      intro b hb
      rcases (mem_insertAscByKey p b rest).mp hb with hb | hb
      · exact hb ▸ le_of_not_lt hge
      · exact hq b hb

/-- `jsIntegerKeyEntries` always returns its pairs in ascending key order:
the ECMAScript integer-index enumeration order. -/
theorem jsIntegerKeyEntries_sorted {β : Type} (obj : List (Nat × β)) :
    (jsIntegerKeyEntries obj).Sorted (fun a b => a.1 ≤ b.1) := by
  unfold jsIntegerKeyEntries
  induction obj with
  | nil => simp
  | cons p rest ih => exact sorted_insertAscByKey p _ ih

/-- Splitting the `❌`-marker prefix off a formatted failure message. -/
theorem content_marker_split (x : CallToolResponse) (pre mid m : String)
    (hx : x = .content (pre ++ m)) (hpre : pre = "❌" ++ mid) :
    x = .content ("❌" ++ (mid ++ m)) := by
  subst hpre
  rw [hx, String.append_assoc]

/-- The default-configured client used by several concrete checks. -/
def clientDefault : NetCoresAPIClient :=
  NetCoresAPIClient.make "https://netcores.fi.uba.ar" ClientOptions.empty

/-- A transport whose every attempt fails with the same connection error. -/
def connErr : Nat → String :=
  fun _ => "NetCores API Connection Error: connect ECONNREFUSED"

/-- A client constructed with `retryAttempts: 3` passed explicitly. -/
def clientThree : NetCoresAPIClient :=
  NetCoresAPIClient.make "https://netcores.fi.uba.ar" ⟨none, some 3, none⟩

/-- C5: with `retryAttempts = 3` and a transport whose every call fails,
`makeRequest` makes exactly 3 attempts, waits `retryDelay * 2^(attempt-1)`
between consecutive attempts (the two inter-attempt delays, summing to
`retryDelay * (2^0 + 2^1)`), and after the last failed attempt surfaces the
final (third) error to the caller rather than retrying further. -/
theorem C5_retry_bound {α : Type} (c : NetCoresAPIClient) (e : Nat → String)
    (h : c.retryAttempts = 3) :
    (c.makeRequest (fun n => (Except.error (e n) : Except String α))).attempts = 3 ∧
    (c.makeRequest (fun n => (Except.error (e n) : Except String α))).delays =
      [c.retryDelay * 2 ^ 0, c.retryDelay * 2 ^ 1] ∧
    (c.makeRequest (fun n => (Except.error (e n) : Except String α))).delays.sum =
      c.retryDelay * (2 ^ 0 + 2 ^ 1) ∧
    (c.makeRequest (fun n => (Except.error (e n) : Except String α))).outcome =
      some (Except.error (e 3)) := by
  have hall := makeRequest_allFail (α := α) c e (by omega)
  rw [h] at hall
  have h3 : ((3 : Int)).toNat = 3 := rfl
  rw [h3] at hall
  rw [hall]
  refine ⟨rfl, rfl, ?_, rfl⟩
  show c.retryDelay * 2 ^ 0 + (c.retryDelay * 2 ^ 1 + 0) =
    c.retryDelay * (2 ^ 0 + 2 ^ 1)
  ring

/-- Witness for C5: the concrete client configured with `retryAttempts: 3`
against an always-refused connection. -/
theorem C5_retry_bound_witness :
    (clientThree.makeRequest
        (fun n => (Except.error (connErr n) : Except String Unit))).attempts = 3 ∧
    (clientThree.makeRequest
        (fun n => (Except.error (connErr n) : Except String Unit))).delays =
      [clientThree.retryDelay * 2 ^ 0, clientThree.retryDelay * 2 ^ 1] ∧
    (clientThree.makeRequest
        (fun n => (Except.error (connErr n) : Except String Unit))).delays.sum =
      clientThree.retryDelay * (2 ^ 0 + 2 ^ 1) ∧
    (clientThree.makeRequest
        (fun n => (Except.error (connErr n) : Except String Unit))).outcome =
      some (Except.error (connErr 3)) :=
  C5_retry_bound clientThree connErr (by decide)

/-- The message the interceptor produces for an HTTP 400 response whose
body carries `message: "Bad Request"` — a non-transient, caller-caused
failure. -/
def err400 : String :=
  interceptError (.response 400 (some "Bad Request") none
    "Request failed with status code 400")

/-- C6: counterexample — a call failing with a non-transient 4xx error
(the interceptor's `NetCores API Error (400): ...`) is retried exactly like
a transient one: the default client makes all 3 attempts, not 1. The claim
says such a call "fails after the first attempt without consuming further
retry budget". -/
theorem C6_counterexample :
    err400 = "NetCores API Error (400): Bad Request" ∧
    (clientDefault.makeRequest
        (fun _ => (Except.error err400 : Except String Unit))).attempts = 3 ∧
    ¬ (clientDefault.makeRequest
        (fun _ => (Except.error err400 : Except String Unit))).attempts = 1 := by
  exact ⟨by decide, by decide, by decide⟩

/-- C6 amended: the retry loop never inspects the failure it caught, so a
call whose failure is classified as non-transient (an HTTP error response,
e.g. a 4xx malformed request) consumes the full retry budget exactly like a
transient one: with a positive attempt cap, every attempt is used. -/
theorem C6_amended_uniform_retry {α : Type} (c : NetCoresAPIClient)
    (status : Nat) (dataMessage dataError : Option String) (message : String)
    (h : 0 < c.retryAttempts) :
    (c.makeRequest (fun _ =>
        (Except.error (interceptError
          (.response status dataMessage dataError message)) : Except String α))).attempts =
      c.retryAttempts.toNat := by
  have hall := makeRequest_allFail (α := α) c
    (fun _ => interceptError (.response status dataMessage dataError message)) h
  rw [hall]

/-- Witness for C6's amended statement at the default client and a 400
response. -/
theorem C6_amended_witness :
    (clientDefault.makeRequest (fun _ =>
        (Except.error (interceptError
          (.response 400 (some "Bad Request") none
            "Request failed with status code 400")) : Except String Unit))).attempts =
      clientDefault.retryAttempts.toNat :=
  C6_amended_uniform_retry clientDefault 400 (some "Bad Request") none
    "Request failed with status code 400" (by decide)

/-- A client constructed with `retryAttempts: 0` — falsy in JS, so the
`options.retryAttempts || 3` constructor default silently reinstates 3. -/
def clientZeroRetry : NetCoresAPIClient :=
  NetCoresAPIClient.make "https://netcores.fi.uba.ar" ⟨none, some 0, none⟩

/-- C10: counterexample — `retryAttempts: 0` is "less than 1", yet the
constructor's `|| 3` treats 0 as falsy: the client gets `retryAttempts = 3`,
`makeRequest` issues 3 HTTP attempts against an always-failing endpoint and
settles with the error, not with `undefined`. -/
theorem C10_counterexample :
    clientZeroRetry.retryAttempts = 3 ∧
    (clientZeroRetry.makeRequest
        (fun n => (Except.error (connErr n) : Except String Unit))).attempts = 3 ∧
    ¬ (clientZeroRetry.makeRequest
        (fun n => (Except.error (connErr n) : Except String Unit))).outcome = none := by
  exact ⟨by decide, by decide, by decide⟩

/-- C10 amended: only a *truthy* `retryAttempts` option below 1 (a negative
count, in the integer model) makes the loop body never run — `makeRequest`
then issues no HTTP request and resolves `undefined` (`⟨0, [], none⟩`);
`retryAttempts: 0` is falsy and falls back to the default of 3 attempts. -/
theorem C10_amended_negative_attempts {α : Type} (baseUrl : String)
    (timeoutOpt retryDelayOpt : Option Int) (k : Int)
    (transport : Nat → Except String α) (hk : k < 0) :
    (NetCoresAPIClient.make baseUrl
        ⟨timeoutOpt, some k, retryDelayOpt⟩).makeRequest transport =
      ⟨0, [], none⟩ ∧
    (NetCoresAPIClient.make baseUrl
        ⟨timeoutOpt, some 0, retryDelayOpt⟩).retryAttempts = 3 := by
  constructor
  · have hra : (NetCoresAPIClient.make baseUrl
        ⟨timeoutOpt, some k, retryDelayOpt⟩).retryAttempts = k := by
      simp only [NetCoresAPIClient.make, jsOrInt]
      rw [if_neg (by omega)]
    have h0 : ((NetCoresAPIClient.make baseUrl
        ⟨timeoutOpt, some k, retryDelayOpt⟩).retryAttempts).toNat = 0 := by
      rw [hra]; omega
    show makeRequestGo transport _ 1 ((NetCoresAPIClient.make baseUrl
      ⟨timeoutOpt, some k, retryDelayOpt⟩).retryAttempts).toNat = ⟨0, [], none⟩
    rw [h0]
    rfl
  · rfl

/-- Witness for C10's amended statement at `retryAttempts: -1`. -/
theorem C10_amended_witness :
    (NetCoresAPIClient.make "https://netcores.fi.uba.ar"
        ⟨none, some (-1), none⟩).makeRequest
      (fun _ => (Except.error "x" : Except String Unit)) = ⟨0, [], none⟩ ∧
    (NetCoresAPIClient.make "https://netcores.fi.uba.ar"
        ⟨none, some 0, none⟩).retryAttempts = 3 :=
  C10_amended_negative_attempts "https://netcores.fi.uba.ar" none none (-1)
    (fun _ => (Except.error "x" : Except String Unit)) (by decide)

/-- C8: `testConnection()` never throws (it is a total function of the
probe's outcome): a successful probe yields `success = true` together with
the probe's status, version and data-status; a thrown probe error yields
`success = false` with the failure reason; an `undefined` probe result
yields `success = false` with the resulting `TypeError` message; and
`success` is `true` exactly when the probe decoded a payload. -/
theorem C8_testConnection_never_throws (c : NetCoresAPIClient)
    (transport : Nat → Except String HealthPayload) :
    (∀ h, (c.makeRequest transport).outcome = some (.ok h) →
      c.testConnection transport =
        ⟨true, h.status, h.version, h.data_status, none, c.baseUrl⟩) ∧
    (∀ e, (c.makeRequest transport).outcome = some (.error e) →
      c.testConnection transport =
        ⟨false, none, none, none, some e, c.baseUrl⟩) ∧
    ((c.makeRequest transport).outcome = none →
      c.testConnection transport =
        ⟨false, none, none, none,
         some "Cannot read properties of undefined (reading 'status')",
         c.baseUrl⟩) ∧
    ((c.testConnection transport).success = true ↔
      ∃ h, (c.makeRequest transport).outcome = some (.ok h)) := by
  refine ⟨?_, ?_, ?_, ?_, ?_⟩
  · intro h hh
    simp only [NetCoresAPIClient.testConnection, hh]
  · intro ev he
    simp only [NetCoresAPIClient.testConnection, he]
  · intro hn
    simp only [NetCoresAPIClient.testConnection, hn]
  · intro hs
    match hout : (c.makeRequest transport).outcome with
    | none => simp [NetCoresAPIClient.testConnection, hout] at hs
    | some (.error ev) => simp [NetCoresAPIClient.testConnection, hout] at hs
    | some (.ok h) => exact ⟨h, rfl⟩
  · rintro ⟨h, hh⟩
    simp [NetCoresAPIClient.testConnection, hh]

/-- A healthy probe payload. -/
def healthyPayload : HealthPayload :=
  ⟨some "healthy", some "1.0.0", some "available", none⟩

/-- A transport whose first attempt decodes the healthy payload. -/
def okTransport : Nat → Except String HealthPayload :=
  fun _ => .ok healthyPayload

/-- Witness for C8 at a concrete client and a succeeding probe. -/
theorem C8_witness :
    clientDefault.testConnection okTransport =
      ⟨true, healthyPayload.status, healthyPayload.version,
       healthyPayload.data_status, none, clientDefault.baseUrl⟩ :=
  (C8_testConnection_never_throws clientDefault okTransport).1
    healthyPayload (by decide)

/-- Single trend points used by the C1 counterexample. -/
def ptA : TrendPoint := ⟨some "2024-01-01", some 2, some 3, some 1⟩

/-- Single trend points used by the C1 counterexample. -/
def ptB : TrendPoint := ⟨some "2024-01-01", some 3, some 3, some 1⟩

set_option maxRecDepth 4000 in
/-- C1: counterexample — with caller-provided ASN list `[15169, 3356]` and a
remote response whose `trend_data` is keyed in that very same order, the
rendered per-ASN sections come out `3356` first, then `15169`: the
`Object.entries` enumeration reorders integer-like keys ascending, so the
output is neither in caller order nor in remote key order. -/
theorem C1_counterexample :
    multipleAsnSectionOrder [(15169, [ptA]), (3356, [ptB])] = [3356, 15169] ∧
    ¬ multipleAsnSectionOrder [(15169, [ptA]), (3356, [ptB])] =
        [15169, 3356] ∧
    multipleAsnTrendsFormat [15169, 3356]
        ⟨some "ipv4", none, some [(15169, [ptA]), (3356, [ptB])]⟩ 10 =
      "📊 Multiple ASN Trend Analysis\n\n**ASNs:** 15169, 3356\n**IP Version:** ipv4\n" ++
        "**Showing:** Up to 10 most recent data points per ASN\n*Use limit=0 to see all data*\n\n" ++
        multiAsnSection 10 (3356, [ptB]) ++ multiAsnSection 10 (15169, [ptA]) := by
  exact ⟨by decide, by decide, by decide⟩

/-- C1 amended: the multiple-ASN trends tool renders its per-ASN sections in
the `Object.entries` enumeration order of the response's `trend_data`
object — ascending numeric ASN order for its integer-like keys — regardless
of the caller-provided ordering (only the `**ASNs:**` header line echoes the
caller's list). -/
theorem C1_amended_sections_ascending
    (trendData : List (Nat × List TrendPoint)) :
    (multipleAsnSectionOrder trendData).Sorted (· ≤ ·) := by
  have h := jsIntegerKeyEntries_sorted trendData
  unfold multipleAsnSectionOrder
  exact List.Pairwise.map Prod.fst (fun a b hab => hab) h

/-- C2: counterexample — `asn` is declared required by the schema of
`netcores_asn_trend`, yet invoking it with the empty argument object is not
rejected: the handler runs, issues the client call (with `asn` undefined)
and returns the handler's own text; likewise a `limit` of 5000, far outside
the schema's `[0, 1000]`, still reaches the handler and the network. -/
theorem C2_counterexample :
    "asn" ∈ ((findToolDefinition "netcores_asn_trend").elim []
      ToolDefinition.required) ∧
    (NetCoresTools.executeTool (failingOracle "connect ECONNREFUSED")
        "netcores_asn_trend" ToolParams.empty).2 =
      [ClientCall.getASNTrend none ⟨"ipv4", none, none⟩] ∧
    (NetCoresTools.executeTool (failingOracle "connect ECONNREFUSED")
        "netcores_asn_trend" ToolParams.empty).1 =
      .ok "❌ ASN trend analysis failed: connect ECONNREFUSED" ∧
    ¬ (NetCoresTools.executeTool (failingOracle "connect ECONNREFUSED")
        "netcores_asn_trend"
        ⟨some 15169, none, none, none, none, some 5000, none⟩).2 = [] := by
  exact ⟨by decide, by decide, by decide, by decide⟩

/-- C2 amended: no schema validation exists — `executeTool` dispatches
straight to the handler, which runs for *every* argument object (valid or
not) and issues exactly one client call built from the raw arguments, with
only JS destructuring defaults applied. -/
theorem C2_amended_no_validation (o : ClientOracle) (params : ToolParams) :
    (NetCoresTools.executeTool o "netcores_asn_trend" params).2 =
      [ClientCall.getASNTrend params.asn
        ⟨params.ip_version.getD "ipv4", jsTruthyStr params.start_date,
         jsTruthyStr params.end_date⟩] ∧
    ∃ t, (NetCoresTools.executeTool o "netcores_asn_trend" params).1 =
      Except.ok t :=
  ⟨rfl, (NetCoresTools.asnTrend o params).1, rfl⟩

/-- C3: counterexample — for the unknown name `unknown_tool_xyz`, zero
client calls are issued (the true half of the claim), but the outcome is a
thrown `McpError` protocol error, not a failure-text block: the dispatcher
rethrows `MethodNotFound` for unknown tools instead of returning text. -/
theorem C3_counterexample :
    (NetCoresTools.executeTool (failingOracle "x") "unknown_tool_xyz"
        ToolParams.empty).2 = [] ∧
    callToolHandler (failingOracle "x") "unknown_tool_xyz" ToolParams.empty =
      .mcpError "MethodNotFound" "Unknown tool: unknown_tool_xyz" ∧
    (callToolHandler (failingOracle "x") "unknown_tool_xyz"
        ToolParams.empty).isTextContent = false := by
  exact ⟨by decide, by decide, by decide⟩

/-- C3 amended: for every tool name outside the registry, `executeTool`
throws `Unknown tool: ...` having issued zero client calls, and the server's
CallTool handler surfaces it as an MCP `MethodNotFound` protocol error
rather than a text block. -/
theorem C3_amended_unknown_tool (o : ClientOracle) (params : ToolParams)
    (name : String) (h : ¬ name ∈ toolNames) :
    NetCoresTools.executeTool o name params =
      (.error ("Unknown tool: " ++ name), []) ∧
    callToolHandler o name params =
      .mcpError "MethodNotFound" ("Unknown tool: " ++ name) := by
  simp only [toolNames, getToolDefinitions, List.map_cons, List.map_nil,
    List.mem_cons, List.not_mem_nil, or_false, not_or] at h
  obtain ⟨h1, h2, h3, h4, h5, h6, h7, h8⟩ := h
  have hexec : NetCoresTools.executeTool o name params =
      (.error ("Unknown tool: " ++ name), []) := by
    simp only [NetCoresTools.executeTool, if_neg h1, if_neg h2, if_neg h3,
      if_neg h4, if_neg h5, if_neg h6, if_neg h7, if_neg h8]
  have hknown : isKnownTool name = false := by
    have g1 : ("netcores_health_check" == name) = false :=
      beq_eq_false_iff_ne.mpr (Ne.symm h1)
    have g2 : ("netcores_data_summary" == name) = false :=
      beq_eq_false_iff_ne.mpr (Ne.symm h2)
    have g3 : ("netcores_asn_trend" == name) = false :=
      beq_eq_false_iff_ne.mpr (Ne.symm h3)
    have g4 : ("netcores_multiple_asn_trends" == name) = false :=
      beq_eq_false_iff_ne.mpr (Ne.symm h4)
    have g5 : ("netcores_snapshots" == name) = false :=
      beq_eq_false_iff_ne.mpr (Ne.symm h5)
    have g6 : ("netcores_refresh_data" == name) = false :=
      beq_eq_false_iff_ne.mpr (Ne.symm h6)
    have g7 : ("netcores_scheduler_status" == name) = false :=
      beq_eq_false_iff_ne.mpr (Ne.symm h7)
    have g8 : ("netcores_trigger_update" == name) = false :=
      beq_eq_false_iff_ne.mpr (Ne.symm h8)
    simp only [isKnownTool, getToolDefinitions, List.any_cons, List.any_nil,
      g1, g2, g3, g4, g5, g6, g7, g8, Bool.or_false, Bool.false_or]
  exact ⟨hexec, by simp [callToolHandler, hexec, hknown]⟩

/-- Witness for C3's amended statement at the unknown name
`unknown_tool_xyz`. -/
theorem C3_amended_witness :
    NetCoresTools.executeTool (failingOracle "x") "unknown_tool_xyz"
        ToolParams.empty =
      (.error ("Unknown tool: " ++ "unknown_tool_xyz"), []) ∧
    callToolHandler (failingOracle "x") "unknown_tool_xyz" ToolParams.empty =
      .mcpError "MethodNotFound" ("Unknown tool: " ++ "unknown_tool_xyz") :=
  C3_amended_unknown_tool (failingOracle "x") ToolParams.empty
    "unknown_tool_xyz" (by decide)

/-- C4: the tail-window law of the single-ASN trend display: for a series of
length `L` and limit `k`, `0 < k < L` displays exactly the final `k`
elements in original order with the line `Most recent k of L data points`;
`k = 0` displays all `L` elements; `k ≥ L` displays all `L` elements and
states "All", never claiming truncation. -/
theorem C4_tail_window (trendData : List TrendPoint) (limit : Int) :
    (0 < limit → limit < (trendData.length : Int) →
      (asnTrendDisplay trendData limit).1 =
        trendData.drop (trendData.length - limit.toNat) ∧
      (asnTrendDisplay trendData limit).2 =
        "**Showing:** Most recent " ++ toString limit.toNat ++ " of " ++
          toString trendData.length ++
          " data points\n*Use limit=0 to see all data*\n\n") ∧
    (limit = 0 →
      (asnTrendDisplay trendData limit).1 = trendData ∧
      (asnTrendDisplay trendData limit).2 =
        "**Showing:** All " ++ toString trendData.length ++
          " data points\n\n") ∧
    ((trendData.length : Int) ≤ limit →
      (asnTrendDisplay trendData limit).1 = trendData ∧
      (asnTrendDisplay trendData limit).2 =
        "**Showing:** All " ++ toString trendData.length ++
          " data points\n\n") := by
  refine ⟨?_, ?_, ?_⟩
  · intro hpos hlt
    have hne : ¬ limit = 0 := by omega
    have hc : (trendData.length : Int) > limit := hlt
    have hdrop : jsSlice trendData (-limit) =
        trendData.drop (trendData.length - limit.toNat) := by
      unfold jsSlice
      rw [if_pos (by omega : -limit < 0)]
      congr 1
      omega
    have hlen : (jsSlice trendData (-limit)).length = limit.toNat := by
      rw [hdrop, List.length_drop]
      omega
    constructor
    · simp [asnTrendDisplay, hne, hc, hdrop]
    · simp [asnTrendDisplay, hne, hc, hlen]
  · intro h0
    subst h0
    constructor <;> simp [asnTrendDisplay]
  · intro hle
    by_cases h0 : limit = 0
    · subst h0
      constructor <;> simp [asnTrendDisplay]
    · have hc2 : ¬ (trendData.length : Int) > limit := by omega
      have hdrop0 : jsSlice trendData (-limit) = trendData := by
        unfold jsSlice
        rw [if_pos (by omega : -limit < 0)]
        have hz : ((trendData.length : Int) + -limit).toNat = 0 := by omega
        rw [hz, List.drop_zero]
      constructor
      · simp [asnTrendDisplay, h0, hc2, hdrop0]
      · simp [asnTrendDisplay, h0, hc2, hdrop0]

/-- A concrete five-point trend series. -/
def tdFive : List TrendPoint :=
  [⟨some "2024-01-01", some 1, some 5, some 0⟩,
   ⟨some "2024-02-01", some 2, some 5, some 0⟩,
   ⟨some "2024-03-01", some 3, some 5, some 0⟩,
   ⟨some "2024-04-01", some 4, some 5, some 1⟩,
   ⟨some "2024-05-01", some 5, some 5, some 1⟩]

/-- Witness for C4 at a five-point series and limit 3. -/
theorem C4_tail_window_witness :
    (asnTrendDisplay tdFive 3).1 =
      tdFive.drop (tdFive.length - (3 : Int).toNat) ∧
    (asnTrendDisplay tdFive 3).2 =
      "**Showing:** Most recent " ++ toString (3 : Int).toNat ++ " of " ++
        toString tdFive.length ++
        " data points\n*Use limit=0 to see all data*\n\n" :=
  (C4_tail_window tdFive 3).1 (by decide) (by decide)

/-- C7: for every known tool name, every argument object and every
handler/transport outcome, the CallTool handler returns exactly one text
content block (no exception escapes its boundary), and when every remote
call fails with message `m` the returned text is the `❌` marker followed by
a tool-specific label and the original error message. -/
theorem C7_dispatcher_text_contract (o : ClientOracle) (name : String)
    (args : ToolParams) (h : name ∈ toolNames) :
    (∃ t, callToolHandler o name args = .content t) ∧
    (∀ m, ∃ mid, callToolHandler (failingOracle m) name args =
      .content ("❌" ++ (mid ++ m))) := by
  simp only [toolNames, getToolDefinitions, List.map_cons, List.map_nil,
    List.mem_cons, List.not_mem_nil, or_false] at h
  rcases h with h | h | h | h | h | h | h | h <;> subst h
  · exact ⟨⟨(NetCoresTools.healthCheck o args).1, rfl⟩,
      fun m => ⟨" Health check failed: ",
        content_marker_split _ _ _ m rfl (by decide)⟩⟩
  · exact ⟨⟨(NetCoresTools.dataSummary o args).1, rfl⟩,
      fun m => ⟨" Data summary failed: ",
        content_marker_split _ _ _ m rfl (by decide)⟩⟩
  · exact ⟨⟨(NetCoresTools.asnTrend o args).1, rfl⟩,
      fun m => ⟨" ASN trend analysis failed: ",
        content_marker_split _ _ _ m rfl (by decide)⟩⟩
  · exact ⟨⟨(NetCoresTools.multipleAsnTrends o args).1, rfl⟩,
      fun m => ⟨" Multiple ASN trend analysis failed: ",
        content_marker_split _ _ _ m rfl (by decide)⟩⟩
  · exact ⟨⟨(NetCoresTools.snapshots o args).1, rfl⟩,
      fun m => ⟨" Snapshots query failed: ",
        content_marker_split _ _ _ m rfl (by decide)⟩⟩
  · exact ⟨⟨(NetCoresTools.refreshData o args).1, rfl⟩,
      fun m => ⟨" Data refresh failed: ",
        content_marker_split _ _ _ m rfl (by decide)⟩⟩
  · exact ⟨⟨(NetCoresTools.schedulerStatus o args).1, rfl⟩,
      fun m => ⟨" Scheduler status query failed: ",
        content_marker_split _ _ _ m rfl (by decide)⟩⟩
  · exact ⟨⟨(NetCoresTools.triggerUpdate o args).1, rfl⟩,
      fun m => ⟨" Manual update trigger failed: ",
        content_marker_split _ _ _ m rfl (by decide)⟩⟩

/-- Witness for C7 at the health-check tool. -/
theorem C7_dispatcher_text_contract_witness :
    (∃ t, callToolHandler (failingOracle "boom") "netcores_health_check"
      ToolParams.empty = .content t) ∧
    (∀ m, ∃ mid, callToolHandler (failingOracle m) "netcores_health_check"
      ToolParams.empty = .content ("❌" ++ (mid ++ m))) :=
  C7_dispatcher_text_contract (failingOracle "boom") "netcores_health_check"
    ToolParams.empty (by decide)

/-- C9: omitted optional arguments get their declared defaults before the
handler's logic runs — `ip_version` defaults to `ipv4` for both trend tools,
`limit` to 20 for the single-ASN tool and to 10 for the multiple-ASN tool:
invoking either tool with these arguments omitted behaves identically to
passing the defaults explicitly, and the registry schemas declare exactly
these defaults. -/
theorem C9_declared_defaults (o : ClientOracle) (params : ToolParams)
    (hip : params.ip_version = none) (hlim : params.limit = none) :
    NetCoresTools.executeTool o "netcores_asn_trend" params =
      NetCoresTools.executeTool o "netcores_asn_trend"
        { params with ip_version := some "ipv4", limit := some 20 } ∧
    NetCoresTools.executeTool o "netcores_multiple_asn_trends" params =
      NetCoresTools.executeTool o "netcores_multiple_asn_trends"
        { params with ip_version := some "ipv4", limit := some 10 } ∧
    schemaPropDefault "netcores_asn_trend" "ip_version" = some (.str "ipv4") ∧
    schemaPropDefault "netcores_asn_trend" "limit" = some (.int 20) ∧
    schemaPropDefault "netcores_multiple_asn_trends" "ip_version" =
      some (.str "ipv4") ∧
    schemaPropDefault "netcores_multiple_asn_trends" "limit" =
      some (.int 10) := by
  refine ⟨?_, ?_, by decide, by decide, by decide, by decide⟩
  · have hh : NetCoresTools.asnTrend o params =
        NetCoresTools.asnTrend o
          { params with ip_version := some "ipv4", limit := some 20 } := by
      unfold NetCoresTools.asnTrend
      simp [hip, hlim]
    have e1 : NetCoresTools.executeTool o "netcores_asn_trend" params =
        (Except.ok (NetCoresTools.asnTrend o params).1,
         (NetCoresTools.asnTrend o params).2) := rfl
    have e2 : NetCoresTools.executeTool o "netcores_asn_trend"
          { params with ip_version := some "ipv4", limit := some 20 } =
        (Except.ok (NetCoresTools.asnTrend o
            { params with ip_version := some "ipv4", limit := some 20 }).1,
         (NetCoresTools.asnTrend o
            { params with ip_version := some "ipv4", limit := some 20 }).2) :=
      rfl
    rw [e1, e2, hh]
  · have hh : NetCoresTools.multipleAsnTrends o params =
        NetCoresTools.multipleAsnTrends o
          { params with ip_version := some "ipv4", limit := some 10 } := by
      unfold NetCoresTools.multipleAsnTrends
      simp [hip, hlim]
    have e1 : NetCoresTools.executeTool o "netcores_multiple_asn_trends"
          params =
        (Except.ok (NetCoresTools.multipleAsnTrends o params).1,
         (NetCoresTools.multipleAsnTrends o params).2) := rfl
    have e2 : NetCoresTools.executeTool o "netcores_multiple_asn_trends"
          { params with ip_version := some "ipv4", limit := some 10 } =
        (Except.ok (NetCoresTools.multipleAsnTrends o
            { params with ip_version := some "ipv4", limit := some 10 }).1,
         (NetCoresTools.multipleAsnTrends o
            { params with ip_version := some "ipv4", limit := some 10 }).2) :=
      rfl
    rw [e1, e2, hh]

/-- A params object carrying only the identifier arguments. -/
def paramsAsnOnly : ToolParams :=
  ⟨some 15169, some [15169, 3356], none, none, none, none, none⟩

/-- Witness for C9 at concrete arguments omitting `ip_version` and
`limit`. -/
theorem C9_declared_defaults_witness :
    NetCoresTools.executeTool (failingOracle "boom") "netcores_asn_trend"
        paramsAsnOnly =
      NetCoresTools.executeTool (failingOracle "boom") "netcores_asn_trend"
        { paramsAsnOnly with ip_version := some "ipv4", limit := some 20 } ∧
    NetCoresTools.executeTool (failingOracle "boom")
        "netcores_multiple_asn_trends" paramsAsnOnly =
      NetCoresTools.executeTool (failingOracle "boom")
        "netcores_multiple_asn_trends"
        { paramsAsnOnly with ip_version := some "ipv4", limit := some 10 } ∧
    schemaPropDefault "netcores_asn_trend" "ip_version" = some (.str "ipv4") ∧
    schemaPropDefault "netcores_asn_trend" "limit" = some (.int 20) ∧
    schemaPropDefault "netcores_multiple_asn_trends" "ip_version" =
      some (.str "ipv4") ∧
    schemaPropDefault "netcores_multiple_asn_trends" "limit" =
      some (.int 10) :=
  C9_declared_defaults (failingOracle "boom") paramsAsnOnly rfl rfl

end NetCoresMCP
